import Mathlib

/-!
ESP8266 temperature sensor web interface

A shallow embedding of two scripts of the sensor's web pages:

* `PageSaveDate.js` : the day-of-month suffix and the year compensation of the
  "Last Updated on" line;
* `TemperatureData.js` : `Connect`, the four web-socket handlers it installs, the
  two button handlers and the gauge's `drawChart`.

A JavaScript number is `NaN`, an infinity, the negative zero or a finite rational.  The
arithmetic is that of the engine, IEEE-754 doubles rounded to nearest, or exact rational
arithmetic where a property is stated over it.  The page is an explicit record that every
handler transforms.
-/

namespace PageSaveDate

/-- The table `DateSuffix = new Array ( 'st', 'nd', 'rd', 'th' )`. -/
def DateSuffix : List String := ["st", "nd", "rd", "th"]

/-- JavaScript array indexing `a[i]` with an integer index: `none` stands for `undefined`,
which is what an index outside `0 .. length-1` gives. -/
def index (a : List String) (i : Int) : Option String :=
  if 0 ≤ i then a.get? i.toNat else none

/-- The index into `DateSuffix` that the three branches of the suffix selection compute
(lines 79-95).  `%` is JavaScript's remainder, which truncates toward zero. -/
def SuffixIndex (MonthDay : Int) : Int :=
  if MonthDay > 0 ∧ MonthDay < 4 then
    -- Special cases: day is 1st, 2nd or 3rd
    MonthDay - 1
  else if MonthDay ≠ 30 ∧ MonthDay > 20 ∧ Int.tmod MonthDay 10 < 4 then
    -- Special cases: day is 21st, 22nd, 23rd, or 31st
    Int.tmod MonthDay 10 - 1
  else
    -- All other days not handled above end in 'th'
    3

/-- The value of `Suffix` after the selection: `DateSuffix[...]`. -/
def Suffix (MonthDay : Int) : Option String :=
  index DateSuffix (SuffixIndex MonthDay)

/-- The English ordinal suffix of a day of the month, as the claim words it:
'st' for 1, 21 and 31, 'nd' for 2 and 22, 'rd' for 3 and 23, 'th' otherwise. -/
def ordinalSuffix (d : Int) : String :=
  if d = 1 ∨ d = 21 ∨ d = 31 then "st"
  else if d = 2 ∨ d = 22 then "nd"
  else if d = 3 ∨ d = 23 then "rd"
  else "th"

/-- The year compensation (lines 109-138) applied to the value `getYear` returned.
`none` stands for the blanked year `""`. -/
def Year (Year : Int) : Option Int :=
  if Year > 0 then
    if Year < 1900 then
      if Year < 50 then
        some (Year + 2000)
      else
        some (Year + 1900)
    else
      some Year
  else
    none

/-- The year compensation as the comment above it (lines 99-107) and the claim describe it:
only a negative value is an error and blanked; below 50 is a two-digit year in the 2000s;
from 50 and below 1900 is referenced from 1900; from 1900 on is already four digits. -/
def YearDocumented (y : Int) : Option Int :=
  if y < 0 then none
  else if y < 50 then some (2000 + y)
  else if y < 1900 then some (1900 + y)
  else some y

end PageSaveDate

namespace TemperatureData

/-! ## JavaScript values -/

/-- How the result of an arithmetic operation is represented: `binary64` is the IEEE-754
double arithmetic of a JavaScript engine, `exact` keeps every rational as it is. -/
inductive Arithmetic where
  | exact
  | binary64
  deriving DecidableEq

/-- A JavaScript number: `NaN`, an infinity, the negative zero or a finite rational. -/
inductive JSNumber where
  | nan
  | inf (negative : Bool)
  | negZero
  | fin (q : ℚ)
  deriving DecidableEq

/-- The primitive values: what `error.message` holds and what the operators `*` and `+`
work on.  `undefined` is what reading an absent property gives. -/
inductive JSValue where
  | undefined
  | null
  | boolean (b : Bool)
  | number (n : JSNumber)
  | string (s : String)
  deriving DecidableEq

/-- What reading a property of the parsed message gives: a primitive, an array, or an
object, of which only the names of its own properties play a part. -/
inductive Field where
  | prim (v : JSValue)
  | array (elems : List Field)
  | object (keys : List String)

/-- What the handler can see of the value `JSON.parse` returned. -/
inductive Parsed where
  /-- An object (or array): the two properties the handler reads, `undefined` when absent. -/
  | object (Value : Field) (Units : Field)
  /-- A top-level number, string or boolean: property reads give `undefined` and the
  property assignment is ignored (the script is not in strict mode). -/
  | primitive
  /-- The value `null`: reading a property of it throws. -/
  | null

/-- The exceptions a handler can raise. -/
inductive JSError where
  | SyntaxError
  | TypeError
  deriving DecidableEq

/-- The parts of the JavaScript runtime the script relies on. -/
structure Runtime where
  /-- The arithmetic of the engine. -/
  arithmetic : Arithmetic
  /-- The function `JSON.parse` on the text of a message. -/
  jsonParse : String → Except JSError Parsed
  /-- The string form of a finite number (`Number::toString`). -/
  numberToString : ℚ → String
  /-- The number a string converts to (`StringToNumber`). -/
  stringToNumber : String → JSNumber

/-- The integer nearest to `t`, a tie going to the even one. -/
def roundHalfEven (t : ℚ) : ℤ :=
  let f := Int.floor t
  if t - f < 1 / 2 then f
  else if 1 / 2 < t - f then f + 1
  else if f % 2 = 0 then f
  else f + 1

/-- The double nearest to a rational, a tie going to the even significand (IEEE-754
binary64, round to nearest): 53 significant bits, least exponent -1022 with gradual
underflow, an infinity from 2^1024 on, and the negative zero for a negative value that
rounds to nothing. -/
def roundBinary64 (x : ℚ) : JSNumber :=
  if x = 0 then .fin 0
  else
    let e := max (Int.log 2 |x|) (-1022)
    let ulp : ℚ := 2 ^ (e - 52)
    let m : ℚ := roundHalfEven (|x| / ulp) * ulp
    if m = 0 then (if x < 0 then .negZero else .fin 0)
    else if 2 ^ 1024 ≤ m then .inf (decide (x < 0))
    else .fin (if x < 0 then -m else m)

/-- The number that stands for the exact result of an operation. -/
def Arithmetic.fl : Arithmetic → ℚ → JSNumber
  | .exact, q => .fin q
  | .binary64, q => roundBinary64 q

/-- The product `x * c` by a positive literal `c`. -/
def JSNumber.mulPos (ar : Arithmetic) (x : JSNumber) (c : ℚ) : JSNumber :=
  match x with
  | .fin q => ar.fl (q * c)
  | x => x

/-- The quotient `x / c` by a positive literal `c`. -/
def JSNumber.divPos (ar : Arithmetic) (x : JSNumber) (c : ℚ) : JSNumber :=
  match x with
  | .fin q => ar.fl (q / c)
  | x => x

/-- The function `Math.round`: the nearest integer, a tie going toward positive
infinity, which is `floor (x + 1/2)`; in double arithmetic the result is the negative
zero for `-1/2 <= x < 0`. -/
def Math.round (ar : Arithmetic) : JSNumber → JSNumber
  | .fin q =>
    if ar = .binary64 ∧ q < 0 ∧ -1 / 2 ≤ q then .negZero
    else .fin ((Int.floor (q + 1 / 2) : ℤ) : ℚ)
  | x => x

/-- The conversion `ToNumber` of a primitive, which `*` applies to its operands. -/
def JSValue.toNumber (rt : Runtime) : JSValue → JSNumber
  | .undefined => .nan
  | .null => .fin 0
  | .boolean b => .fin (if b then 1 else 0)
  | .number n => n
  | .string s => rt.stringToNumber s

/-- The string form of a number. -/
def JSNumber.toStr (rt : Runtime) : JSNumber → String
  | .nan => "NaN"
  | .inf false => "Infinity"
  | .inf true => "-Infinity"
  | .negZero => "0"
  | .fin q => rt.numberToString q

/-- The conversion `ToString` of a primitive, which `+` applies to the other operand of a
string. -/
def JSValue.toStr (rt : Runtime) : JSValue → String
  | .undefined => "undefined"
  | .null => "null"
  | .boolean b => if b then "true" else "false"
  | .number n => n.toStr rt
  | .string s => s

mutual

/-- The conversion `ToPrimitive`, which `*` and `+` apply to an operand first.  An array
becomes the join of its elements.  An object becomes "[object Object]", unless it has an
own property named `toString`: a parsed value is never callable, so that property hides
the inherited method and the conversion throws. -/
def Field.toPrimitive (rt : Runtime) : Field → Except JSError JSValue
  | .prim v => .ok v
  | .array elems =>
    match Field.join rt elems with
    | .ok t => .ok (.string t)
    | .error e => .error e
  | .object keys =>
    if "toString" ∈ keys then .error .TypeError else .ok (.string "[object Object]")

/-- The method `Array.prototype.join` with the separator ",": `undefined` and `null`
elements give the empty string, any other element its string form. -/
def Field.join (rt : Runtime) : List Field → Except JSError String
  | [] => .ok ""
  | e :: es =>
    let first : Except JSError String :=
      match e with
      | .prim .undefined => .ok ""
      | .prim .null => .ok ""
      | e =>
        match Field.toPrimitive rt e with
        | .ok v => .ok (v.toStr rt)
        | .error err => .error err
    match first with
    | .error err => .error err
    | .ok a =>
      match es with
      | [] => .ok a
      | _ :: _ =>
        match Field.join rt es with
        | .ok b => .ok (a ++ "," ++ b)
        | .error err => .error err

end

/-- The expression `Math.round ( v * 10 ) / 10` of line 125, on a primitive. -/
def roundTenths (rt : Runtime) (v : JSValue) : JSNumber :=
  (Math.round rt.arithmetic ((v.toNumber rt).mulPos rt.arithmetic 10)).divPos rt.arithmetic 10

/-! ## The page -/

/-- A page element: the two properties the script writes. -/
structure Element where
  innerHTML : String
  className : String
  deriving DecidableEq

/-- A web socket created by `Connect`.  `readyState` is 0 connecting, 1 open, 2 closing,
3 closed. -/
structure WebSocket where
  url : String
  readyState : Nat
  deriving DecidableEq

/-- Everything `Connect` and the handlers read or write. -/
structure Page where
  /-- Whether `'WebSocket' in window` holds. -/
  hasWebSocket : Bool
  /-- The address the device's web server put in place of `ws://w.x.y.z:p`. -/
  endpoint : String
  /-- The texts shown by `alert`, oldest first. -/
  alerts : List String
  /-- The lines written by `console.log`, oldest first. -/
  console : List String
  /-- The number of calls of `google.charts.load`. -/
  chartsLoad : Nat
  /-- The `drawChart` callbacks registered with `setOnLoadCallback` and not yet run. -/
  onLoadCallback : Nat
  /-- The values handed to `chart.draw` as the gauge's 'Temp' row, oldest first. -/
  gauge : List JSValue
  /-- The element with id `data`. -/
  DataField : Element
  /-- The element with id `status`. -/
  SocketStatus : Element
  /-- Every socket `Connect` created, oldest first; each carries the four handlers
  `Connect` assigned to it. -/
  sockets : List WebSocket
  /-- The socket that `CloseButton.onclick` closes, as an index into `sockets`;
  `none` while `Connect` has not assigned the handler. -/
  CloseButton : Option Nat
  /-- Whether `ConnectButton.onclick` has been assigned (it then calls `Connect`). -/
  ConnectButton : Bool
  deriving DecidableEq

/-- The call `console.log ( line )`. -/
def consoleLog (line : String) (s : Page) : Page :=
  { s with console := s.console ++ [line] }

/-- The function `drawChart ( t = 0 )`: the default applies when the argument is
`undefined`; the gauge is drawn once with the 'Temp' row holding `t`. -/
def drawChart (t : JSValue) (s : Page) : Page :=
  let t := if t = .undefined then .number (.fin 0) else t
  { s with gauge := s.gauge ++ [t] }

/-- The handler `ws.onopen`; `ws` is the socket it is assigned to, which is also
`event.currentTarget`. -/
def onopen (ws : WebSocket) (s : Page) : Page :=
  let s := consoleLog ("Connecting to " ++ ws.url) s
  let s := { s with SocketStatus := { s.SocketStatus with innerHTML := "Connecting to " ++ ws.url } }
  let State := ws.readyState
  let s := consoleLog ("Socket ready state = " ++ toString State) s
  if State = 1 then
    let s := { s with SocketStatus := { s.SocketStatus with className := "open" } }
    let s := consoleLog ("Connected to " ++ ws.url) s
    { s with SocketStatus := { s.SocketStatus with innerHTML := "Connected to " ++ ws.url } }
  else
    s

/-- The handler `ws.onerror`; `message` is `error.message`. -/
def onerror (rt : Runtime) (message : JSValue) (s : Page) : Page :=
  let s := consoleLog ("WebSocket Error: " ++ message.toStr rt) s
  let s := { s with SocketStatus := { s.SocketStatus with innerHTML := "Error: " ++ message.toStr rt } }
  let s := { s with DataField := { s.DataField with innerHTML := "No Reading ..." } }
  drawChart .undefined s

/-- The handler `ws.onmessage`; `data` is `event.data`.  The result is the object
`JSONData` as the handler leaves it, and the page.  An exception leaves the page as it is
after the first `console.log`. -/
def onmessage (rt : Runtime) (data : String) (s : Page) : Except JSError (Parsed × Page) :=
  let s := consoleLog ("Data = " ++ data) s
  match rt.jsonParse data with
  | .error e => .error e
  | .ok .null => .error .TypeError
  | .ok .primitive =>
    -- the assignment to `JSONData.Value` is ignored, both reads give `undefined`
    let s := { s with DataField := { s.DataField with
      innerHTML := JSValue.toStr rt .undefined ++ " &deg;" ++ JSValue.toStr rt .undefined } }
    .ok (.primitive, drawChart .undefined s)
  | .ok (.object Value Units) =>
    match Value.toPrimitive rt with
    | .error e => .error e
    | .ok v =>
      let Value := JSValue.number (roundTenths rt v)
      match Units.toPrimitive rt with
      | .error e => .error e
      | .ok u =>
        let s := { s with DataField := { s.DataField with
          innerHTML := JSValue.toStr rt Value ++ " &deg;" ++ JSValue.toStr rt u } }
        .ok (.object (.prim Value) Units, drawChart Value s)

/-- The handler `ws.onclose`. -/
def onclose (ws : WebSocket) (s : Page) : Page :=
  let s := consoleLog ("Connection to " ++ ws.url ++ " closed") s
  let s := { s with SocketStatus := { s.SocketStatus with
    innerHTML := "WebSocket " ++ ws.url ++ " disconnected" } }
  let s := { s with SocketStatus := { s.SocketStatus with className := "closed" } }
  let s := { s with DataField := { s.DataField with innerHTML := "No Reading ..." } }
  drawChart .undefined s

/-- The method `ws.close ()`: a connecting or open socket starts closing, any other is
left alone. -/
def WebSocket.close (ws : WebSocket) : WebSocket :=
  if ws.readyState = 0 ∨ ws.readyState = 1 then { ws with readyState := 2 } else ws

/-- The function `Connect`. -/
def Connect (s : Page) : Page :=
  if ! s.hasWebSocket then
    { s with alerts := s.alerts ++
        ["ERROR: Web sockets are required for this application, but are not supported."] }
  else
    let s := { s with chartsLoad := s.chartsLoad + 1 }
    let s := { s with onLoadCallback := s.onLoadCallback + 1 }
    let ws := s.sockets.length
    let s := { s with sockets := s.sockets ++ [WebSocket.mk s.endpoint 0] }
    let s := { s with CloseButton := some ws }
    { s with ConnectButton := true }

/-- The handler `CloseButton.onclick`, once assigned: it closes the socket of the call of
`Connect` that assigned it. -/
def CloseButton_onclick (s : Page) : Page :=
  match s.CloseButton with
  | none => s
  | some ws => { s with sockets := s.sockets.modify WebSocket.close ws }

/-- The handler `ConnectButton.onclick`, once assigned: it calls `Connect`. -/
def ConnectButton_onclick (s : Page) : Page :=
  if s.ConnectButton then Connect s else s

/-! ## Events -/

/-- What can happen to the page. -/
inductive Event where
  /-- The page calls `Connect ()`. -/
  | load
  /-- The chart library runs one registered callback, `drawChart ()`. -/
  | chartsReady
  | clickConnect
  | clickClose
  /-- The browser sets the `readyState` of socket `ws`. -/
  | transport (ws : Nat) (readyState : Nat)
  | wsOpen (ws : Nat)
  | wsError (ws : Nat) (message : JSValue)
  | wsMessage (ws : Nat) (data : String)
  | wsClose (ws : Nat)

/-- One event, delivered to the handler it belongs to. -/
def step (rt : Runtime) (s : Page) : Event → Page
  | .load => Connect s
  | .chartsReady =>
    if 0 < s.onLoadCallback then
      drawChart .undefined { s with onLoadCallback := s.onLoadCallback - 1 }
    else s
  | .clickConnect => ConnectButton_onclick s
  | .clickClose => CloseButton_onclick s
  | .transport ws readyState =>
    { s with sockets := s.sockets.modify (fun w => { w with readyState := readyState }) ws }
  | .wsOpen ws =>
    match s.sockets[ws]? with
    | some w => onopen w s
    | none => s
  | .wsError ws message =>
    match s.sockets[ws]? with
    | some _ => onerror rt message s
    | none => s
  | .wsMessage ws data =>
    match s.sockets[ws]? with
    | some _ =>
      match onmessage rt data s with
      | .ok (_, s') => s'
      | .error _ => consoleLog ("Data = " ++ data) s
    | none => s
  | .wsClose ws =>
    match s.sockets[ws]? with
    | some w => onclose w s
    | none => s

/-- A sequence of events, in order. -/
def run (rt : Runtime) (s : Page) (es : List Event) : Page :=
  es.foldl (step rt) s

/-- The page before any script has run. -/
def initial (hasWebSocket : Bool) (endpoint : String) : Page :=
  { hasWebSocket := hasWebSocket, endpoint := endpoint, alerts := [], console := [],
    chartsLoad := 0, onLoadCallback := 0, gauge := [],
    DataField := { innerHTML := "", className := "" },
    SocketStatus := { innerHTML := "", className := "" },
    sockets := [], CloseButton := none, ConnectButton := false }

/-- A connection is live while it is connecting or open. -/
def WebSocket.live (ws : WebSocket) : Bool :=
  ws.readyState == 0 || ws.readyState == 1

/-- The number of live connections of the page. -/
def liveCount (s : Page) : Nat :=
  (s.sockets.filter WebSocket.live).length

/-! ## Reference points for the claims -/

/-- Rounding to one decimal place with a tie at the tenths digit going away from zero, as
the claim words it. -/
def roundHalfAwayFromZero (v : ℚ) : ℚ :=
  if 0 ≤ v then (Int.floor (v * 10 + 1 / 2) : ℤ) / 10
  else -((Int.floor (-v * 10 + 1 / 2) : ℤ) / 10)

/-- The decimal form of the multiple of one tenth nearest to `q`.  This is what
`Number::toString` gives when `q` is that multiple or the double nearest to it, for the
magnitudes this page displays. -/
def tenthsToString (q : ℚ) : String :=
  let k : Nat := (Int.floor (|q| * 10 + 1 / 2)).toNat
  let body := toString (k / 10) ++ (if k % 10 = 0 then "" else "." ++ toString (k % 10))
  if q < 0 ∧ k ≠ 0 then "-" ++ body else body

/-- A runtime for the worked examples, in either arithmetic: `JSON.parse` is given on four
message texts, reading each number as the arithmetic represents it, and rejects every
other text; numbers print as their nearest tenth; no example converts a string to a
number, so every string converts to `NaN`. -/
def exampleRuntime (ar : Arithmetic) : Runtime where
  arithmetic := ar
  jsonParse := fun data =>
    if data = "\x7b\"Value\":72.34,\"Units\":\"F\"\x7d" then
      .ok (.object (.prim (.number (ar.fl (7234 / 100)))) (.prim (.string "F")))
    else if data = "\x7b\"Value\":-72.35,\"Units\":\"F\"\x7d" then
      .ok (.object (.prim (.number (ar.fl (-7235 / 100)))) (.prim (.string "F")))
    else if data = "\x7b\"Value\":6.449999999999999,\"Units\":\"F\"\x7d" then
      .ok (.object (.prim (.number (ar.fl (6449999999999999 / 1000000000000000))))
        (.prim (.string "F")))
    else if data = "\x7b\"Units\":\"F\"\x7d" then
      .ok (.object (.prim .undefined) (.prim (.string "F")))
    else
      .error .SyntaxError
  numberToString := tenthsToString
  stringToNumber := fun _ => .nan

end TemperatureData

namespace PageSaveDate

/-- C9: for every day of the month d with 1 <= d <= 31 the index used into DateSuffix is
one of 0..3 and the suffix chosen is the English ordinal suffix of d. -/
theorem Suffix_ordinal (d : Int) (h1 : 1 ≤ d) (h31 : d ≤ 31) :
    (0 ≤ SuffixIndex d ∧ SuffixIndex d ≤ 3) ∧ Suffix d = some (ordinalSuffix d) := by
  interval_cases d <;> decide

/-- Witness for C9 at the 22nd. -/
theorem Suffix_ordinal_witness :
    (1 : Int) ≤ 22 ∧ (22 : Int) ≤ 31 ∧
      ((0 ≤ SuffixIndex 22 ∧ SuffixIndex 22 ≤ 3) ∧ Suffix 22 = some (ordinalSuffix 22)) :=
  ⟨by decide, by decide, Suffix_ordinal 22 (by decide) (by decide)⟩

/-- C10: at the year value 0 the code blanks the year, where the documented compensation
(blank only a negative value, below 50 is in the 2000s) displays 2000. -/
theorem Year_zero_blank : Year 0 = none ∧ YearDocumented 0 = some 2000 := by
  decide

/-- Away from 0 the year compensation is the documented one. -/
theorem Year_eq_documented (y : Int) (hy : y ≠ 0) : Year y = YearDocumented y := by
  unfold Year YearDocumented
  by_cases h0 : y > 0
  · have hn : ¬ y < 0 := by omega
    by_cases h1 : y < 1900
    · by_cases h2 : y < 50
      · simp [h0, h1, h2, hn, add_comm]
      · simp [h0, h1, h2, hn, add_comm]
    · have h2 : ¬ y < 50 := by omega
      simp [h0, h1, h2, hn]
  · have hn : y < 0 := by omega
    simp [h0, hn]

end PageSaveDate

namespace TemperatureData

/-! ## Helper facts -/

/-- The text written first by `ws.onopen` never starts with 'Connected to '. -/
theorem connecting_ne_connected (url t : String) :
    "Connecting to " ++ url ≠ "Connected to " ++ t := by
  intro h
  have hd := congrArg String.data h
  simp at hd

/-- The binary logarithm, rounded down, of a rational between two powers of two. -/
theorem log_two_eq (a : ℚ) (e : ℤ) (h1 : (2 : ℚ) ^ e ≤ a) (h2 : a < (2 : ℚ) ^ (e + 1)) :
    Int.log 2 a = e := by
  have h0 : 0 < a := lt_of_lt_of_le (by positivity) h1
  have ha := (Int.lt_zpow_iff_log_lt (b := 2) (by norm_num) h0).1 (by exact_mod_cast h2)
  have hb := (Int.zpow_le_iff_le_log (b := 2) (by norm_num) h0).1 (by exact_mod_cast h1)
  omega

/-- The double nearest to a positive rational in the normal range, from its binade `e` and
its rounded significand `n`. -/
theorem roundBinary64_normal (x : ℚ) (e n : ℤ) (r : ℚ) (hx : 0 < x) (he : -1022 ≤ e)
    (h1 : (2 : ℚ) ^ e ≤ x) (h2 : x < (2 : ℚ) ^ (e + 1))
    (hn : roundHalfEven (x / 2 ^ (e - 52)) = n) (hn0 : 0 < n)
    (hfin : (n : ℚ) * 2 ^ (e - 52) < 2 ^ 1024) (hr : r = (n : ℚ) * 2 ^ (e - 52)) :
    roundBinary64 x = .fin r := by
  have hlog := log_two_eq x e h1 h2
  have hpos : (0 : ℚ) < (n : ℚ) * 2 ^ (e - 52) := by
    have : (0 : ℚ) < n := by exact_mod_cast hn0
    positivity
  unfold roundBinary64
  simp only [abs_of_pos hx, hlog, max_eq_left he, hn]
  rw [if_neg hx.ne', if_neg hpos.ne', if_neg (not_le.mpr hfin), if_neg (not_lt.mpr hx.le), hr]

/-- The double that 72.34 is read as. -/
theorem binary64_v1 :
    roundBinary64 (7234 / 100) = .fin (2545237476906107 / 35184372088832) := by
  refine roundBinary64_normal _ 6 5090474953812214 _ (by norm_num) (by norm_num) (by norm_num)
    (by norm_num) ?_ (by norm_num) (by norm_num) (by norm_num)
  unfold roundHalfEven
  have hf : Int.floor ((7234 / 100 : ℚ) / 2 ^ ((6 : ℤ) - 52)) = 5090474953812213 := by
    norm_num [Int.floor_eq_iff]
  rw [hf]
  norm_num

/-- The double that the product of that double by 10 rounds to. -/
theorem binary64_p1 :
    roundBinary64 ((2545237476906107 / 35184372088832 : ℚ) * 10) =
      .fin (1590773423066317 / 2199023255552) := by
  refine roundBinary64_normal _ 9 6363093692265268 _ (by norm_num) (by norm_num) (by norm_num)
    (by norm_num) ?_ (by norm_num) (by norm_num) (by norm_num)
  unfold roundHalfEven
  have hf : Int.floor ((2545237476906107 / 35184372088832 : ℚ) * 10 / 2 ^ ((9 : ℤ) - 52)) =
      6363093692265267 := by
    norm_num [Int.floor_eq_iff]
  rw [hf]
  norm_num

/-- The double nearest to 72.3. -/
theorem binary64_r1 :
    roundBinary64 (723 / 10) = .fin (5087660204045107 / 70368744177664) := by
  refine roundBinary64_normal _ 6 5087660204045107 _ (by norm_num) (by norm_num) (by norm_num)
    (by norm_num) ?_ (by norm_num) (by norm_num) (by norm_num)
  unfold roundHalfEven
  have hf : Int.floor ((723 / 10 : ℚ) / 2 ^ ((6 : ℤ) - 52)) = 5087660204045107 := by
    norm_num [Int.floor_eq_iff]
  rw [hf]
  norm_num

/-- The double that 6.449999999999999 is read as. -/
theorem binary64_v2 :
    roundBinary64 (6449999999999999 / 1000000000000000) =
      .fin (1815513599783731 / 281474976710656) := by
  refine roundBinary64_normal _ 2 7262054399134924 _ (by norm_num) (by norm_num) (by norm_num)
    (by norm_num) ?_ (by norm_num) (by norm_num) (by norm_num)
  unfold roundHalfEven
  have hf : Int.floor ((6449999999999999 / 1000000000000000 : ℚ) / 2 ^ ((2 : ℤ) - 52)) =
      7262054399134923 := by
    norm_num [Int.floor_eq_iff]
  rw [hf]
  norm_num

/-- The product of that double by 10 lies halfway between two doubles and rounds to the
even one, which is 64.5. -/
theorem binary64_p2 :
    roundBinary64 ((1815513599783731 / 281474976710656 : ℚ) * 10) = .fin (129 / 2) := by
  refine roundBinary64_normal _ 6 4538783999459328 _ (by norm_num) (by norm_num) (by norm_num)
    (by norm_num) ?_ (by norm_num) (by norm_num) (by norm_num)
  unfold roundHalfEven
  have hf : Int.floor ((1815513599783731 / 281474976710656 : ℚ) * 10 / 2 ^ ((6 : ℤ) - 52)) =
      4538783999459327 := by
    norm_num [Int.floor_eq_iff]
  rw [hf]
  norm_num

/-- The number 6.5 is a double. -/
theorem binary64_r2 : roundBinary64 (65 / 10) = .fin (13 / 2) := by
  refine roundBinary64_normal _ 2 7318349394477056 _ (by norm_num) (by norm_num) (by norm_num)
    (by norm_num) ?_ (by norm_num) (by norm_num) (by norm_num)
  unfold roundHalfEven
  have hf : Int.floor ((65 / 10 : ℚ) / 2 ^ ((2 : ℤ) - 52)) = 7318349394477056 := by
    norm_num [Int.floor_eq_iff]
  rw [hf]
  norm_num

/-- The value of `Math.round ( v * 10 ) / 10` on a finite number, in exact arithmetic. -/
theorem roundTenths_exact (rt : Runtime) (hexact : rt.arithmetic = .exact) (v : ℚ) :
    roundTenths rt (.number (.fin v)) = .fin ((Int.floor (10 * v + 1 / 2) : ℤ) / 10) := by
  simp [roundTenths, hexact, JSValue.toNumber, Math.round, JSNumber.mulPos, JSNumber.divPos,
    Arithmetic.fl, mul_comm]

/-- The value of `Math.round ( v * 10 ) / 10` on a finite number, in double arithmetic. -/
theorem roundTenths_binary64 (rt : Runtime) (hb : rt.arithmetic = .binary64) (v : ℚ) :
    roundTenths rt (.number (.fin v)) =
      (Math.round .binary64 (roundBinary64 (v * 10))).divPos .binary64 10 := by
  simp [roundTenths, hb, JSValue.toNumber, JSNumber.mulPos, Arithmetic.fl]

/-- An absent value rounds to `NaN`. -/
theorem roundTenths_undefined (rt : Runtime) : roundTenths rt .undefined = .nan := by
  simp [roundTenths, JSValue.toNumber, Math.round, JSNumber.mulPos, JSNumber.divPos]

/-- What `ws.onmessage` does with a message that parses to an object whose two properties
convert to primitives. -/
theorem onmessage_object (rt : Runtime) (data : String) (Value Units : Field)
    (v u : JSValue) (s : Page) (hparse : rt.jsonParse data = .ok (.object Value Units))
    (hv : Value.toPrimitive rt = .ok v) (hu : Units.toPrimitive rt = .ok u) :
    onmessage rt data s =
      .ok (.object (.prim (.number (roundTenths rt v))) Units,
        { s with
          console := s.console ++ ["Data = " ++ data]
          DataField := { s.DataField with
            innerHTML := (roundTenths rt v).toStr rt ++ " &deg;" ++ u.toStr rt }
          gauge := s.gauge ++ [.number (roundTenths rt v)] }) := by
  simp [onmessage, hparse, hv, hu, consoleLog, drawChart, JSValue.toStr]

/-- A primitive is its own primitive. -/
theorem toPrimitive_prim (rt : Runtime) (v : JSValue) : (Field.prim v).toPrimitive rt = .ok v := by
  simp [Field.toPrimitive]

/-- How arrays and objects convert: an array to the join of its elements, an object to
"[object Object]", and an object with an own `toString` property throws. -/
theorem toPrimitive_composite (rt : Runtime) (q : ℚ) :
    (Field.array [.prim (.number (.fin q))]).toPrimitive rt =
      .ok (.string (rt.numberToString q)) ∧
    (Field.array [.prim (.string "a"), .prim .null, .array [.prim (.boolean true)],
      .object ["x"]]).toPrimitive rt = .ok (.string "a,,true,[object Object]") ∧
    (Field.object []).toPrimitive rt = .ok (.string "[object Object]") ∧
    (Field.object ["toString"]).toPrimitive rt = .error .TypeError := by
  refine ⟨?_, ?_, ?_, ?_⟩ <;>
    simp [Field.toPrimitive, Field.join, JSValue.toStr, JSNumber.toStr]

/-- An exception in the conversion of Value or of Units ends the handler with that
exception. -/
theorem onmessage_throws (rt : Runtime) (data : String) (Value Units : Field) (e : JSError)
    (s : Page) (hparse : rt.jsonParse data = .ok (.object Value Units))
    (h : Value.toPrimitive rt = .error e ∨
      ((∃ v, Value.toPrimitive rt = .ok v) ∧ Units.toPrimitive rt = .error e)) :
    onmessage rt data s = .error e := by
  rcases h with h | ⟨⟨v, hv⟩, hu⟩
  · simp [onmessage, hparse, h]
  · simp [onmessage, hparse, hv, hu]

/-- The handler `ws.onmessage` never touches the status element. -/
theorem onmessage_status (rt : Runtime) (data : String) (s s' : Page) (J : Parsed)
    (h : onmessage rt data s = .ok (J, s')) : s'.SocketStatus = s.SocketStatus := by
  unfold onmessage at h
  simp only [consoleLog, drawChart] at h
  split at h
  · simp at h
  · simp at h
  · simp only [Except.ok.injEq, Prod.mk.injEq] at h
    rw [← h.2]
  · split at h
    · simp at h
    · split at h
      · simp at h
      · simp only [Except.ok.injEq, Prod.mk.injEq] at h
        rw [← h.2]

/-- The exact rounding of line 125 at -72.35. -/
theorem floor_b : Int.floor (10 * (-7235 / 100 : ℚ) + 1 / 2) = -723 := by
  norm_num [Int.floor_eq_iff]

/-- Rounding half away from zero takes -72.35 to -72.4. -/
theorem half_away_b : roundHalfAwayFromZero (-7235 / 100) = -724 / 10 := by
  have h : Int.floor (-(-7235 / 100 : ℚ) * 10 + 1 / 2) = 724 := by
    norm_num [Int.floor_eq_iff]
  unfold roundHalfAwayFromZero
  rw [h]
  norm_num

/-- The decimal form of -72.3. -/
theorem tenthsToString_neg : tenthsToString (-723 / 10) = "-72.3" := by
  have h : Int.floor (|(-723 / 10 : ℚ)| * 10 + 1 / 2) = 723 := by
    norm_num [Int.floor_eq_iff, abs_of_nonneg]
  unfold tenthsToString
  rw [h]
  norm_num
  decide

/-- The decimal form of the double nearest to 72.3. -/
theorem tenthsToString_r1 :
    tenthsToString (5087660204045107 / 70368744177664) = "72.3" := by
  have h : Int.floor (|(5087660204045107 / 70368744177664 : ℚ)| * 10 + 1 / 2) = 723 := by
    norm_num [Int.floor_eq_iff, abs_of_nonneg]
  unfold tenthsToString
  rw [h]
  norm_num
  decide

/-- The decimal form of 6.5. -/
theorem tenthsToString_r2 : tenthsToString (13 / 2) = "6.5" := by
  have h : Int.floor (|(13 / 2 : ℚ)| * 10 + 1 / 2) = 65 := by
    norm_num [Int.floor_eq_iff, abs_of_nonneg]
  unfold tenthsToString
  rw [h]
  norm_num
  decide

/-- In double arithmetic the message with Value 72.34 rounds to the double nearest to
72.3. -/
theorem roundTenths_v1 :
    roundTenths (exampleRuntime .binary64)
        (.number (.fin (2545237476906107 / 35184372088832))) =
      .fin (5087660204045107 / 70368744177664) := by
  have hf : Int.floor ((1590773423066317 / 2199023255552 : ℚ) + 1 / 2) = 723 := by
    norm_num [Int.floor_eq_iff]
  have hr : roundBinary64 (((723 : ℤ) : ℚ) / 10) =
      .fin (5087660204045107 / 70368744177664) := by
    have := binary64_r1
    norm_num at this ⊢
    exact this
  rw [roundTenths_binary64 _ rfl, binary64_p1]
  simp only [Math.round, JSNumber.divPos, Arithmetic.fl, hf]
  rw [if_neg (by norm_num)]
  exact hr

/-- In double arithmetic the message with Value 6.449999999999999 rounds to 6.5. -/
theorem roundTenths_v2 :
    roundTenths (exampleRuntime .binary64)
        (.number (.fin (1815513599783731 / 281474976710656))) = .fin (13 / 2) := by
  have hf : Int.floor ((129 / 2 : ℚ) + 1 / 2) = 65 := by
    norm_num [Int.floor_eq_iff]
  have hr : roundBinary64 (((65 : ℤ) : ℚ) / 10) = .fin (13 / 2) := by
    have := binary64_r2
    norm_num at this ⊢
    exact this
  rw [roundTenths_binary64 _ rfl, binary64_p2]
  simp only [Math.round, JSNumber.divPos, Arithmetic.fl, hf]
  rw [if_neg (by norm_num)]
  exact hr

/-- The example runtime, in double arithmetic, on the message with Value 72.34. -/
theorem parse_a : (exampleRuntime .binary64).jsonParse "\x7b\"Value\":72.34,\"Units\":\"F\"\x7d" =
    .ok (.object (.prim (.number (.fin (2545237476906107 / 35184372088832))))
      (.prim (.string "F"))) := by
  simp only [exampleRuntime, Arithmetic.fl, binary64_v1]
  rfl

/-- The example runtime, in exact arithmetic, on the message with Value -72.35. -/
theorem parse_b : (exampleRuntime .exact).jsonParse "\x7b\"Value\":-72.35,\"Units\":\"F\"\x7d" =
    .ok (.object (.prim (.number (.fin (-7235 / 100)))) (.prim (.string "F"))) := by
  simp [exampleRuntime, Arithmetic.fl]

/-- The example runtime on the message without a Value. -/
theorem parse_c (ar : Arithmetic) : (exampleRuntime ar).jsonParse "\x7b\"Units\":\"F\"\x7d" =
    .ok (.object (.prim .undefined) (.prim (.string "F"))) := by
  simp [exampleRuntime]

/-- The example runtime, in double arithmetic, on the message with Value
6.449999999999999. -/
theorem parse_d : (exampleRuntime .binary64).jsonParse
      "\x7b\"Value\":6.449999999999999,\"Units\":\"F\"\x7d" =
    .ok (.object (.prim (.number (.fin (1815513599783731 / 281474976710656))))
      (.prim (.string "F"))) := by
  simp only [exampleRuntime, Arithmetic.fl, binary64_v2]
  simp

/-- A message event whose text parses to an object with primitive Value and Units,
delivered to an existing socket. -/
theorem step_wsMessage_object (rt : Runtime) (s : Page) (ws : Nat) (w : WebSocket)
    (data : String) (v u : JSValue) (hw : s.sockets[ws]? = some w)
    (hparse : rt.jsonParse data = .ok (.object (.prim v) (.prim u))) :
    step rt s (.wsMessage ws data) =
      { s with
        console := s.console ++ ["Data = " ++ data]
        DataField := { s.DataField with
          innerHTML := (roundTenths rt v).toStr rt ++ " &deg;" ++ u.toStr rt }
        gauge := s.gauge ++ [.number (roundTenths rt v)] } := by
  simp [step, hw, onmessage_object rt data _ _ v u s hparse (toPrimitive_prim rt v)
    (toPrimitive_prim rt u)]

/-! ## Claims -/

/-- C4: when the runtime has no WebSocket support, Connect does nothing except show one
alert: the page is otherwise unchanged (no socket, no handler, no button wired, no gauge
load or draw). -/
theorem Connect_unsupported (s : Page) (h : s.hasWebSocket = false) :
    Connect s = { s with alerts := s.alerts ++
      ["ERROR: Web sockets are required for this application, but are not supported."] } := by
  simp [Connect, h]

/-- Witness for C4 on the page before any script has run. -/
theorem Connect_unsupported_witness :
    (initial false "ws://192.168.4.1:81").hasWebSocket = false ∧
      Connect (initial false "ws://192.168.4.1:81") =
        { initial false "ws://192.168.4.1:81" with
          alerts := (initial false "ws://192.168.4.1:81").alerts ++
            ["ERROR: Web sockets are required for this application, but are not supported."] } :=
  ⟨rfl, Connect_unsupported (initial false "ws://192.168.4.1:81") rfl⟩

/-- C6: after ws.onopen the status has class 'open' and text 'Connected to <url>' if and
only if readyState is 1; when readyState is not 1 the class is left as it was and the text
does not start with 'Connected to '. -/
theorem onopen_status (ws : WebSocket) (s : Page) :
    (((onopen ws s).SocketStatus.className = "open" ∧
        (onopen ws s).SocketStatus.innerHTML = "Connected to " ++ ws.url) ↔
      ws.readyState = 1) ∧
    (ws.readyState ≠ 1 →
      (onopen ws s).SocketStatus.className = s.SocketStatus.className ∧
      ∀ t, (onopen ws s).SocketStatus.innerHTML ≠ "Connected to " ++ t) := by
  by_cases h : ws.readyState = 1
  · simp [onopen, h, consoleLog]
  · have hne := connecting_ne_connected ws.url
    simp [onopen, h, consoleLog, hne]

/-- C7: whatever the page before, ws.onerror and ws.onclose leave the display text
"No Reading ..." and draw the gauge exactly once, with the baseline 0 that drawChart
without an argument stands for. -/
theorem onerror_onclose_no_reading (rt : Runtime) (message : JSValue) (ws : WebSocket)
    (s : Page) :
    ((onerror rt message s).DataField.innerHTML = "No Reading ..." ∧
      (onerror rt message s).gauge = s.gauge ++ [.number (.fin 0)]) ∧
    ((onclose ws s).DataField.innerHTML = "No Reading ..." ∧
      (onclose ws s).gauge = s.gauge ++ [.number (.fin 0)]) ∧
    drawChart .undefined s = drawChart (.number (.fin 0)) s := by
  simp [onerror, onclose, drawChart, consoleLog]

/-- C8 as stated fails: after a successful open, ws.onerror leaves the status class 'open';
the classification is not 'error'. -/
theorem onerror_keeps_open :
    (onerror (exampleRuntime .binary64) .undefined
        (onopen (WebSocket.mk "ws://192.168.4.1:81" 1)
          (Connect (initial true "ws://192.168.4.1:81")))).SocketStatus =
      { innerHTML := "Error: undefined", className := "open" } := by
  simp [onerror, onopen, Connect, initial, drawChart, consoleLog, JSValue.toStr]

/-- C8 amended: after ws.onerror, whatever the page before it, the status text is 'Error: '
followed by the error's message, which is neither a 'Connected to ...' nor a
'WebSocket ... disconnected' text, and the status class is what it was before the event.
No 'error' class exists: every event leaves the class as it is or sets it to 'open' or to
'closed'. -/
theorem onerror_status (rt : Runtime) (message : JSValue) (s : Page) :
    (onerror rt message s).SocketStatus =
      { innerHTML := "Error: " ++ message.toStr rt, className := s.SocketStatus.className } ∧
    (∀ t, (onerror rt message s).SocketStatus.innerHTML ≠ "Connected to " ++ t) ∧
    (∀ t, (onerror rt message s).SocketStatus.innerHTML ≠ "WebSocket " ++ t) ∧
    (∀ e, (step rt s e).SocketStatus.className = s.SocketStatus.className ∨
      (step rt s e).SocketStatus.className = "open" ∨
      (step rt s e).SocketStatus.className = "closed") := by
  have h : (onerror rt message s).SocketStatus =
      { innerHTML := "Error: " ++ message.toStr rt,
        className := s.SocketStatus.className } := by
    simp [onerror, drawChart, consoleLog]
  refine ⟨h, ?_, ?_, ?_⟩
  · intro t ht
    rw [h] at ht
    have hd := congrArg String.data ht
    simp at hd
  · intro t ht
    rw [h] at ht
    have hd := congrArg String.data ht
    simp at hd
  · intro e
    cases e with
    | load =>
      left
      by_cases hws : s.hasWebSocket <;> simp [step, Connect, hws]
    | chartsReady =>
      left
      by_cases hc : 0 < s.onLoadCallback <;> simp [step, drawChart, hc]
    | clickConnect =>
      left
      by_cases hb : s.ConnectButton <;> by_cases hws : s.hasWebSocket <;>
        simp [step, ConnectButton_onclick, Connect, hb, hws]
    | clickClose =>
      left
      cases hcb : s.CloseButton <;> simp [step, CloseButton_onclick, hcb]
    | transport ws readyState =>
      left
      simp [step]
    | wsOpen ws =>
      cases hw : s.sockets[ws]? with
      | none => left; simp [step, hw]
      | some w =>
        by_cases h1 : w.readyState = 1
        · right; left
          simp [step, hw, onopen, consoleLog, h1]
        · left
          simp [step, hw, onopen, consoleLog, h1]
    | wsError ws message =>
      left
      cases hw : s.sockets[ws]? <;> simp [step, hw, onerror, drawChart, consoleLog]
    | wsMessage ws data =>
      left
      cases hw : s.sockets[ws]? with
      | none => simp [step, hw]
      | some w =>
        cases hm : onmessage rt data s with
        | error err => simp [step, hw, hm, consoleLog]
        | ok r =>
          have := onmessage_status rt data s r.2 r.1 hm
          simp [step, hw, hm, this]
    | wsClose ws =>
      cases hw : s.sockets[ws]? with
      | none => left; simp [step, hw]
      | some w =>
        right; right
        simp [step, hw, onclose, drawChart, consoleLog]

/-- C5 as stated fails: after the page has called Connect, one click on the connect button
while the first socket is still connecting, or after it has opened, leaves two live
connections. -/
theorem clickConnect_second_socket :
    liveCount (run (exampleRuntime .binary64) (initial true "ws://192.168.4.1:81")
      [.load, .clickConnect]) = 2 ∧
    (run (exampleRuntime .binary64) (initial true "ws://192.168.4.1:81")
      [.load, .transport 0 1, .wsOpen 0, .clickConnect]).sockets =
        [WebSocket.mk "ws://192.168.4.1:81" 1, WebSocket.mk "ws://192.168.4.1:81" 0] := by
  constructor
  · simp [run, step, ConnectButton_onclick, Connect, initial, liveCount, WebSocket.live]
  · simp [run, step, ConnectButton_onclick, Connect, initial, onopen, consoleLog,
      List.modify, List.modifyTailIdx, List.modifyHead]

/-- C5 amended: once the connect button is wired, and with WebSocket support, a click
always runs Connect, which adds one new connecting socket whatever the state of the
existing ones, so the number of live connections grows by one. -/
theorem ConnectButton_onclick_adds_socket (s : Page) (hwired : s.ConnectButton = true)
    (hws : s.hasWebSocket = true) :
    ConnectButton_onclick s = Connect s ∧
    (ConnectButton_onclick s).sockets = s.sockets ++ [WebSocket.mk s.endpoint 0] ∧
    liveCount (ConnectButton_onclick s) = liveCount s + 1 := by
  simp [ConnectButton_onclick, Connect, hwired, hws, liveCount, WebSocket.live,
    List.filter_append]

/-- Witness for C5 amended, on the page right after its first call of Connect. -/
theorem ConnectButton_onclick_adds_socket_witness :
    (Connect (initial true "ws://192.168.4.1:81")).ConnectButton = true ∧
    (Connect (initial true "ws://192.168.4.1:81")).hasWebSocket = true ∧
    liveCount (ConnectButton_onclick (Connect (initial true "ws://192.168.4.1:81"))) =
      liveCount (Connect (initial true "ws://192.168.4.1:81")) + 1 :=
  ⟨by simp [Connect, initial], by simp [Connect, initial],
    (ConnectButton_onclick_adds_socket (Connect (initial true "ws://192.168.4.1:81"))
      (by simp [Connect, initial]) (by simp [Connect, initial])).2.2⟩


/-- C1 as stated fails: in exact arithmetic the message with Value -72.35 stores, displays
and draws -72.3, where rounding the tie away from zero gives -72.4. -/
theorem onmessage_negative_tie :
    (onmessage (exampleRuntime .exact) "\x7b\"Value\":-72.35,\"Units\":\"F\"\x7d"
        (initial true "ws://192.168.4.1:81")).map
      (fun r => (r.1, r.2.DataField.innerHTML, r.2.gauge)) =
      .ok (.object (.prim (.number (.fin (-723 / 10)))) (.prim (.string "F")), "-72.3 &deg;F",
        [.number (.fin (-723 / 10))]) ∧
    roundHalfAwayFromZero (-7235 / 100) = -724 / 10 ∧
    (-723 / 10 : ℚ) ≠ roundHalfAwayFromZero (-7235 / 100) := by
  refine ⟨?_, half_away_b, ?_⟩
  · rw [onmessage_object _ _ _ _ _ _ _ parse_b (toPrimitive_prim _ _) (toPrimitive_prim _ _),
      roundTenths_exact _ rfl, floor_b]
    simp [Except.map, initial, JSNumber.toStr, JSValue.toStr, exampleRuntime]
    norm_num
    have := tenthsToString_neg
    norm_num at this
    simp [this]
  · rw [half_away_b]; norm_num

/-- C1 amended: in exact arithmetic, for every finite Value v the value stored, displayed
and passed to the gauge is k/10 for the integer k with 10v - 1/2 < k <= 10v + 1/2, which
is v rounded to one decimal place with a tie going toward positive infinity; for v >= 0
this is the rounding away from zero. -/
theorem onmessage_rounds_half_up (rt : Runtime) (data : String) (v : ℚ) (Units : JSValue)
    (s : Page) (hexact : rt.arithmetic = .exact)
    (hparse : rt.jsonParse data = .ok (.object (.prim (.number (.fin v))) (.prim Units))) :
    ∃ k : ℤ, (10 * v - 1 / 2 < k ∧ (k : ℚ) ≤ 10 * v + 1 / 2) ∧
      (0 ≤ v → (k : ℚ) / 10 = roundHalfAwayFromZero v) ∧
      ∃ s', onmessage rt data s =
          .ok (.object (.prim (.number (.fin (k / 10)))) (.prim Units), s') ∧
        s'.DataField.innerHTML = rt.numberToString (k / 10) ++ " &deg;" ++ Units.toStr rt ∧
        s'.gauge = s.gauge ++ [.number (.fin (k / 10))] := by
  refine ⟨Int.floor (10 * v + 1 / 2), ⟨?_, Int.floor_le _⟩, ?_, ?_⟩
  · have := Int.lt_floor_add_one (10 * v + 1 / 2)
    linarith
  · intro hv
    simp [roundHalfAwayFromZero, hv, mul_comm]
  · rw [onmessage_object rt data _ _ _ _ s hparse (toPrimitive_prim _ _)
      (toPrimitive_prim _ _), roundTenths_exact rt hexact]
    exact ⟨_, rfl, rfl, rfl⟩

/-- Witness for C1 amended at the message with Value -72.35. -/
theorem onmessage_rounds_half_up_witness :
    (exampleRuntime .exact).arithmetic = .exact ∧
    (exampleRuntime .exact).jsonParse "\x7b\"Value\":-72.35,\"Units\":\"F\"\x7d" =
      .ok (.object (.prim (.number (.fin (-7235 / 100)))) (.prim (.string "F"))) ∧
    ∃ k : ℤ, (10 * (-7235 / 100 : ℚ) - 1 / 2 < k ∧ (k : ℚ) ≤ 10 * (-7235 / 100) + 1 / 2) ∧
      (0 ≤ (-7235 / 100 : ℚ) → (k : ℚ) / 10 = roundHalfAwayFromZero (-7235 / 100)) ∧
      ∃ s', onmessage (exampleRuntime .exact) "\x7b\"Value\":-72.35,\"Units\":\"F\"\x7d"
          (initial true "ws://192.168.4.1:81") =
            .ok (.object (.prim (.number (.fin (k / 10)))) (.prim (.string "F")), s') ∧
        s'.DataField.innerHTML =
          (exampleRuntime .exact).numberToString (k / 10) ++ " &deg;" ++
            (JSValue.string "F").toStr (exampleRuntime .exact) ∧
        s'.gauge = (initial true "ws://192.168.4.1:81").gauge ++ [.number (.fin (k / 10))] :=
  ⟨rfl, parse_b, onmessage_rounds_half_up (exampleRuntime .exact) _ _ _ _ rfl parse_b⟩

/-- C2 as stated fails: the message with Value 6.449999999999999 and Units "F" gives the
text "6.5 &deg;F" and the gauge value 6.5, where floor(10*v + 1/2) / 10 is 6.4, both for
the decimal written in the message and for the double it is read as. -/
theorem onmessage_double_rounding :
    (onmessage (exampleRuntime .binary64)
        "\x7b\"Value\":6.449999999999999,\"Units\":\"F\"\x7d"
        (initial true "ws://192.168.4.1:81")).map
      (fun r => (r.2.DataField.innerHTML, r.2.gauge)) =
      .ok ("6.5 &deg;F", [.number (.fin (13 / 2))]) ∧
    ((Int.floor (10 * (6449999999999999 / 1000000000000000 : ℚ) + 1 / 2) : ℤ) : ℚ) / 10 =
      64 / 10 ∧
    ((Int.floor (10 * (1815513599783731 / 281474976710656 : ℚ) + 1 / 2) : ℤ) : ℚ) / 10 =
      64 / 10 := by
  have h1 : Int.floor (10 * (6449999999999999 / 1000000000000000 : ℚ) + 1 / 2) = 64 := by
    norm_num [Int.floor_eq_iff]
  have h2 : Int.floor (10 * (1815513599783731 / 281474976710656 : ℚ) + 1 / 2) = 64 := by
    norm_num [Int.floor_eq_iff]
  refine ⟨?_, by rw [h1]; norm_num, by rw [h2]; norm_num⟩
  rw [onmessage_object _ _ _ _ _ _ _ parse_d (toPrimitive_prim _ _) (toPrimitive_prim _ _),
    roundTenths_v2]
  have := tenthsToString_r2
  simp [Except.map, initial, JSNumber.toStr, JSValue.toStr, exampleRuntime, this]

/-- C2 amended: for a message that parses to an object with numeric Value v and string
Units u, ws.onmessage sets the display text to r, " &deg;" and u, and draws the gauge
exactly once with r; nothing else on the page changes but the console.  In double
arithmetic r is Math.round(v*10)/10 with both operations rounded: with p the double
nearest to 10*v, r is the double nearest to floor(p + 1/2) / 10, the negative zero when
-1/2 <= p < 0 or p is the negative zero, and the infinity p when the product overflows. -/
theorem onmessage_reading (rt : Runtime) (data : String) (v : ℚ) (u : String) (s : Page)
    (hb : rt.arithmetic = .binary64)
    (hparse : rt.jsonParse data =
      .ok (.object (.prim (.number (.fin v))) (.prim (.string u)))) :
    ∃ r : JSNumber,
      onmessage rt data s =
        .ok (.object (.prim (.number r)) (.prim (.string u)),
          { s with
            console := s.console ++ ["Data = " ++ data]
            DataField := { s.DataField with innerHTML := r.toStr rt ++ " &deg;" ++ u }
            gauge := s.gauge ++ [.number r] }) ∧
      (∀ p, roundBinary64 (v * 10) = .fin p →
        (p < 0 ∧ -1 / 2 ≤ p → r = .negZero) ∧
        (¬ (p < 0 ∧ -1 / 2 ≤ p) →
          r = roundBinary64 (((Int.floor (p + 1 / 2) : ℤ) : ℚ) / 10))) ∧
      (roundBinary64 (v * 10) = .negZero → r = .negZero) ∧
      (∀ b, roundBinary64 (v * 10) = .inf b → r = .inf b) := by
  refine ⟨roundTenths rt (.number (.fin v)), ?_, ?_, ?_, ?_⟩
  · rw [onmessage_object rt data _ _ _ _ s hparse (toPrimitive_prim _ _)
      (toPrimitive_prim _ _)]
    rfl
  · intro p hp
    rw [roundTenths_binary64 rt hb, hp]
    constructor
    · intro h
      simp [Math.round, JSNumber.divPos, h]
    · intro h
      simp only [Math.round, true_and, if_neg h, JSNumber.divPos, Arithmetic.fl]
  · intro h
    rw [roundTenths_binary64 rt hb, h]
    rfl
  · intro b h
    rw [roundTenths_binary64 rt hb, h]
    rfl

/-- Witness for C2 amended: Value 72.34 and Units "F" give the text "72.3 &deg;F" and, as
gauge value, the double nearest to 72.3. -/
theorem onmessage_reading_witness :
    (exampleRuntime .binary64).arithmetic = .binary64 ∧
    (exampleRuntime .binary64).jsonParse "\x7b\"Value\":72.34,\"Units\":\"F\"\x7d" =
      .ok (.object (.prim (.number (.fin (2545237476906107 / 35184372088832))))
        (.prim (.string "F"))) ∧
    (onmessage (exampleRuntime .binary64) "\x7b\"Value\":72.34,\"Units\":\"F\"\x7d"
        (initial true "ws://192.168.4.1:81")).map
      (fun r => (r.2.DataField.innerHTML, r.2.gauge)) =
      .ok ("72.3 &deg;F", [.number (.fin (5087660204045107 / 70368744177664))]) ∧
    roundBinary64 (723 / 10) = .fin (5087660204045107 / 70368744177664) := by
  refine ⟨rfl, parse_a, ?_, binary64_r1⟩
  obtain ⟨r, hr, hfin, -, -⟩ := onmessage_reading (exampleRuntime .binary64) _ _ _
    (initial true "ws://192.168.4.1:81") rfl parse_a
  have hf : Int.floor ((1590773423066317 / 2199023255552 : ℚ) + 1 / 2) = 723 := by
    norm_num [Int.floor_eq_iff]
  have h723 : roundBinary64 (((723 : ℤ) : ℚ) / 10) =
      .fin (5087660204045107 / 70368744177664) := by
    have := binary64_r1
    norm_num at this ⊢
    exact this
  have hr1 : r = .fin (5087660204045107 / 70368744177664) := by
    rw [(hfin _ binary64_p1).2 (by norm_num), hf, h723]
  subst hr1
  rw [hr]
  have := tenthsToString_r1
  simp [Except.map, initial, JSNumber.toStr, exampleRuntime, this]

/-- C3 as stated fails: with "72.3 &deg;F" displayed, a message that has Units but no Value
replaces the text by "NaN &deg;F" and draws the gauge with NaN. -/
theorem onmessage_missing_value_displayed :
    (run (exampleRuntime .binary64) (initial true "ws://192.168.4.1:81")
      [.load, .wsMessage 0 "\x7b\"Value\":72.34,\"Units\":\"F\"\x7d"]).DataField.innerHTML =
        "72.3 &deg;F" ∧
    (run (exampleRuntime .binary64) (initial true "ws://192.168.4.1:81")
      [.load, .wsMessage 0 "\x7b\"Value\":72.34,\"Units\":\"F\"\x7d"]).gauge =
        [.number (.fin (5087660204045107 / 70368744177664))] ∧
    (run (exampleRuntime .binary64) (initial true "ws://192.168.4.1:81")
      [.load, .wsMessage 0 "\x7b\"Value\":72.34,\"Units\":\"F\"\x7d",
        .wsMessage 0 "\x7b\"Units\":\"F\"\x7d"]).DataField.innerHTML = "NaN &deg;F" ∧
    (run (exampleRuntime .binary64) (initial true "ws://192.168.4.1:81")
      [.load, .wsMessage 0 "\x7b\"Value\":72.34,\"Units\":\"F\"\x7d",
        .wsMessage 0 "\x7b\"Units\":\"F\"\x7d"]).gauge =
        [.number (.fin (5087660204045107 / 70368744177664)), .number .nan] := by
  have h := tenthsToString_r1
  have e1 : run (exampleRuntime .binary64) (initial true "ws://192.168.4.1:81")
      [.load, .wsMessage 0 "\x7b\"Value\":72.34,\"Units\":\"F\"\x7d"] =
      step (exampleRuntime .binary64) (Connect (initial true "ws://192.168.4.1:81"))
        (.wsMessage 0 "\x7b\"Value\":72.34,\"Units\":\"F\"\x7d") := rfl
  have e2 : run (exampleRuntime .binary64) (initial true "ws://192.168.4.1:81")
      [.load, .wsMessage 0 "\x7b\"Value\":72.34,\"Units\":\"F\"\x7d",
        .wsMessage 0 "\x7b\"Units\":\"F\"\x7d"] =
      step (exampleRuntime .binary64)
        (step (exampleRuntime .binary64) (Connect (initial true "ws://192.168.4.1:81"))
          (.wsMessage 0 "\x7b\"Value\":72.34,\"Units\":\"F\"\x7d"))
        (.wsMessage 0 "\x7b\"Units\":\"F\"\x7d") := rfl
  rw [e2, e1,
    step_wsMessage_object (exampleRuntime .binary64)
      (Connect (initial true "ws://192.168.4.1:81")) 0
      (WebSocket.mk "ws://192.168.4.1:81" 0) _ _ _ rfl parse_a,
    step_wsMessage_object (exampleRuntime .binary64) _ 0
      (WebSocket.mk "ws://192.168.4.1:81" 0) _ _ _ ?_ (parse_c _),
    roundTenths_v1, roundTenths_undefined]
  · simp [Connect, initial, JSNumber.toStr, JSValue.toStr, exampleRuntime, h]
  · rfl

/-- C3 amended: ws.onmessage validates nothing.  For every message that parses to an
object, whatever its Value and Units (absent, a primitive, an array or an object) as long
as they convert to primitives v and u without an exception, it writes the text n, " &deg;"
and the string form of u, and draws the gauge exactly once with
n = Math.round(v*10)/10, changing nothing else but the console; an absent Value gives
n = NaN (text "NaN"), an absent Units the text "undefined". -/
theorem onmessage_no_validation (rt : Runtime) (data : String) (Value Units : Field)
    (v u : JSValue) (s : Page) (hparse : rt.jsonParse data = .ok (.object Value Units))
    (hv : Value.toPrimitive rt = .ok v) (hu : Units.toPrimitive rt = .ok u) :
    onmessage rt data s =
      .ok (.object (.prim (.number
            ((Math.round rt.arithmetic ((v.toNumber rt).mulPos rt.arithmetic 10)).divPos
              rt.arithmetic 10))) Units,
        { s with
          console := s.console ++ ["Data = " ++ data]
          DataField := { s.DataField with
            innerHTML :=
              ((Math.round rt.arithmetic ((v.toNumber rt).mulPos rt.arithmetic 10)).divPos
                rt.arithmetic 10).toStr rt ++ " &deg;" ++ u.toStr rt }
          gauge := s.gauge ++ [.number
            ((Math.round rt.arithmetic ((v.toNumber rt).mulPos rt.arithmetic 10)).divPos
              rt.arithmetic 10)] }) ∧
    (Value = .prim .undefined →
      (Math.round rt.arithmetic ((v.toNumber rt).mulPos rt.arithmetic 10)).divPos
          rt.arithmetic 10 = .nan ∧
      JSNumber.toStr rt .nan = "NaN") ∧
    (Units = .prim .undefined → u.toStr rt = "undefined") := by
  refine ⟨onmessage_object rt data Value Units v u s hparse hv hu, ?_, ?_⟩
  · rintro rfl
    rw [toPrimitive_prim] at hv
    cases hv
    exact ⟨roundTenths_undefined rt, rfl⟩
  · rintro rfl
    rw [toPrimitive_prim] at hu
    cases hu
    rfl

/-- Witness for C3 amended at the message without a Value. -/
theorem onmessage_no_validation_witness :
    (exampleRuntime .binary64).jsonParse "\x7b\"Units\":\"F\"\x7d" =
      .ok (.object (.prim .undefined) (.prim (.string "F"))) ∧
    (Field.prim .undefined).toPrimitive (exampleRuntime .binary64) = .ok .undefined ∧
    (Field.prim (.string "F")).toPrimitive (exampleRuntime .binary64) = .ok (.string "F") ∧
    (onmessage (exampleRuntime .binary64) "\x7b\"Units\":\"F\"\x7d"
        (initial true "ws://192.168.4.1:81")).map
      (fun r => (r.2.DataField.innerHTML, r.2.gauge)) =
      .ok ("NaN &deg;F", [.number .nan]) := by
  refine ⟨parse_c _, toPrimitive_prim _ _, toPrimitive_prim _ _, ?_⟩
  rw [(onmessage_no_validation (exampleRuntime .binary64) _ _ _ _ _
    (initial true "ws://192.168.4.1:81") (parse_c _) (toPrimitive_prim _ _)
    (toPrimitive_prim _ _)).1]
  simp [Except.map, initial, JSValue.toNumber, JSNumber.mulPos, Math.round, JSNumber.divPos,
    JSNumber.toStr, JSValue.toStr]

end TemperatureData
